import Mathlib

/-!
nvenc-loader: the load / unload / dispatch shim

A shallow embedding of `nvenc_loader.c`.  The two globals of the translation
unit (`dll_handle`, `api`) become the fields of `State`; every call that leaves
the translation unit (the platform loader, the vendor factory, a vendor entry
point reached through a function pointer) is answered by a `Platform` and is
recorded, in order, in `State.trace`.
-/

namespace NvencLoader

/-- The type `dll_handle_t` (`void *` or `HMODULE`); `0` is `NULL`. -/
abbrev Handle := Nat

/-- A function pointer; `0` is `NULL`. -/
abbrev Ptr := Nat

/-- An argument or a return value the shim only carries: a pointer, a
`uint32_t`, a `uint64_t`, a `GUID`, an enum.  The shim never looks inside. -/
abbrev Word := Nat

/-- The vendor status code `NVENCSTATUS`. -/
abbrev NVENCSTATUS := Nat

/-- The record `NV_ENCODE_API_FUNCTION_LIST`: its version tag and the function
pointers `nvenc_loader.c` reads, in the order the file reads them.  The
declaration itself lives in the vendor header, which is not part of the
sources; the fields here are those the source names. -/
structure NV_ENCODE_API_FUNCTION_LIST where
  version : Nat
  nvEncOpenEncodeSession : Ptr
  nvEncGetEncodeGUIDCount : Ptr
  nvEncGetEncodeGUIDs : Ptr
  nvEncGetEncodeProfileGUIDCount : Ptr
  nvEncGetEncodeProfileGUIDs : Ptr
  nvEncGetInputFormatCount : Ptr
  nvEncGetInputFormats : Ptr
  nvEncGetEncodeCaps : Ptr
  nvEncGetEncodePresetCount : Ptr
  nvEncGetEncodePresetGUIDs : Ptr
  nvEncGetEncodePresetConfig : Ptr
  nvEncGetEncodePresetConfigEx : Ptr
  nvEncInitializeEncoder : Ptr
  nvEncCreateInputBuffer : Ptr
  nvEncDestroyInputBuffer : Ptr
  nvEncSetIOCudaStreams : Ptr
  nvEncCreateBitstreamBuffer : Ptr
  nvEncDestroyBitstreamBuffer : Ptr
  nvEncEncodePicture : Ptr
  nvEncLockBitstream : Ptr
  nvEncUnlockBitstream : Ptr
  nvEncLockInputBuffer : Ptr
  nvEncUnlockInputBuffer : Ptr
  nvEncGetEncodeStats : Ptr
  nvEncGetSequenceParams : Ptr
  nvEncGetSequenceParamEx : Ptr
  nvEncRegisterAsyncEvent : Ptr
  nvEncUnregisterAsyncEvent : Ptr
  nvEncMapInputResource : Ptr
  nvEncUnmapInputResource : Ptr
  nvEncDestroyEncoder : Ptr
  nvEncInvalidateRefFrames : Ptr
  nvEncOpenEncodeSessionEx : Ptr
  nvEncRegisterResource : Ptr
  nvEncUnregisterResource : Ptr
  nvEncReconfigureEncoder : Ptr
  nvEncCreateMVBuffer : Ptr
  nvEncDestroyMVBuffer : Ptr
  nvEncRunMotionEstimationOnly : Ptr
  nvEncGetLastErrorString : Ptr
deriving DecidableEq, Repr

/-- The result of `memset(&api, 0, sizeof(NV_ENCODE_API_FUNCTION_LIST))`. -/
def NV_ENCODE_API_FUNCTION_LIST.zero : NV_ENCODE_API_FUNCTION_LIST where
  version := 0
  nvEncOpenEncodeSession := 0
  nvEncGetEncodeGUIDCount := 0
  nvEncGetEncodeGUIDs := 0
  nvEncGetEncodeProfileGUIDCount := 0
  nvEncGetEncodeProfileGUIDs := 0
  nvEncGetInputFormatCount := 0
  nvEncGetInputFormats := 0
  nvEncGetEncodeCaps := 0
  nvEncGetEncodePresetCount := 0
  nvEncGetEncodePresetGUIDs := 0
  nvEncGetEncodePresetConfig := 0
  nvEncGetEncodePresetConfigEx := 0
  nvEncInitializeEncoder := 0
  nvEncCreateInputBuffer := 0
  nvEncDestroyInputBuffer := 0
  nvEncSetIOCudaStreams := 0
  nvEncCreateBitstreamBuffer := 0
  nvEncDestroyBitstreamBuffer := 0
  nvEncEncodePicture := 0
  nvEncLockBitstream := 0
  nvEncUnlockBitstream := 0
  nvEncLockInputBuffer := 0
  nvEncUnlockInputBuffer := 0
  nvEncGetEncodeStats := 0
  nvEncGetSequenceParams := 0
  nvEncGetSequenceParamEx := 0
  nvEncRegisterAsyncEvent := 0
  nvEncUnregisterAsyncEvent := 0
  nvEncMapInputResource := 0
  nvEncUnmapInputResource := 0
  nvEncDestroyEncoder := 0
  nvEncInvalidateRefFrames := 0
  nvEncOpenEncodeSessionEx := 0
  nvEncRegisterResource := 0
  nvEncUnregisterResource := 0
  nvEncReconfigureEncoder := 0
  nvEncCreateMVBuffer := 0
  nvEncDestroyMVBuffer := 0
  nvEncRunMotionEstimationOnly := 0
  nvEncGetLastErrorString := 0

/-- The function pointers of a table, the version tag left out. -/
def NV_ENCODE_API_FUNCTION_LIST.entries (t : NV_ENCODE_API_FUNCTION_LIST) : List Ptr :=
  [t.nvEncOpenEncodeSession,
   t.nvEncGetEncodeGUIDCount,
   t.nvEncGetEncodeGUIDs,
   t.nvEncGetEncodeProfileGUIDCount,
   t.nvEncGetEncodeProfileGUIDs,
   t.nvEncGetInputFormatCount,
   t.nvEncGetInputFormats,
   t.nvEncGetEncodeCaps,
   t.nvEncGetEncodePresetCount,
   t.nvEncGetEncodePresetGUIDs,
   t.nvEncGetEncodePresetConfig,
   t.nvEncGetEncodePresetConfigEx,
   t.nvEncInitializeEncoder,
   t.nvEncCreateInputBuffer,
   t.nvEncDestroyInputBuffer,
   t.nvEncSetIOCudaStreams,
   t.nvEncCreateBitstreamBuffer,
   t.nvEncDestroyBitstreamBuffer,
   t.nvEncEncodePicture,
   t.nvEncLockBitstream,
   t.nvEncUnlockBitstream,
   t.nvEncLockInputBuffer,
   t.nvEncUnlockInputBuffer,
   t.nvEncGetEncodeStats,
   t.nvEncGetSequenceParams,
   t.nvEncGetSequenceParamEx,
   t.nvEncRegisterAsyncEvent,
   t.nvEncUnregisterAsyncEvent,
   t.nvEncMapInputResource,
   t.nvEncUnmapInputResource,
   t.nvEncDestroyEncoder,
   t.nvEncInvalidateRefFrames,
   t.nvEncOpenEncodeSessionEx,
   t.nvEncRegisterResource,
   t.nvEncUnregisterResource,
   t.nvEncReconfigureEncoder,
   t.nvEncCreateMVBuffer,
   t.nvEncDestroyMVBuffer,
   t.nvEncRunMotionEstimationOnly,
   t.nvEncGetLastErrorString]

/-- Every function pointer of the table is non-null. -/
def NV_ENCODE_API_FUNCTION_LIST.populated (t : NV_ENCODE_API_FUNCTION_LIST) : Prop :=
  ∀ p ∈ t.entries, p ≠ 0

instance (t : NV_ENCODE_API_FUNCTION_LIST) : Decidable t.populated := by
  unfold NV_ENCODE_API_FUNCTION_LIST.populated; infer_instance

/-- Every function pointer of the table is null. -/
def NV_ENCODE_API_FUNCTION_LIST.unpopulated (t : NV_ENCODE_API_FUNCTION_LIST) : Prop :=
  ∀ p ∈ t.entries, p = 0

instance (t : NV_ENCODE_API_FUNCTION_LIST) : Decidable t.unpopulated := by
  unfold NV_ENCODE_API_FUNCTION_LIST.unpopulated; infer_instance

/-- One call that leaves the translation unit, with what was passed
(and, for the loader calls, what came back). -/
inductive Event where
  /-- The call `DLL_LOAD(path)`, which returned `h`. -/
  | dll_load (path : String) (h : Handle)
  /-- The call `DLL_LINK(h, name)`, which returned `p`. -/
  | dll_link (h : Handle) (name : String) (p : Ptr)
  /-- The call `DLL_UNLOAD(h)`. -/
  | dll_unload (h : Handle)
  /-- The call `create_instance(&api)` through the pointer `f`, with the
  contents of `api` at the moment of the call. -/
  | create_instance (f : Ptr) (arg : NV_ENCODE_API_FUNCTION_LIST)
  /-- A call through the function pointer `f` with the arguments `args`. -/
  | call (f : Ptr) (args : List Word)
deriving DecidableEq, Repr

/-- What lies outside the translation unit.  Each answer may depend on every
call made so far. -/
structure Platform where
  /-- The handle `dlopen` / `LoadLibraryA` returns for a path. -/
  DLL_LOAD : List Event → String → Handle
  /-- The address `dlsym` / `GetProcAddress` returns for a name. -/
  DLL_LINK : List Event → Handle → String → Ptr
  /-- The vendor factory behind a pointer: its status and what it leaves in
  the record it was handed. -/
  create_instance : List Event → Ptr → NV_ENCODE_API_FUNCTION_LIST →
    NVENCSTATUS × NV_ENCODE_API_FUNCTION_LIST
  /-- The value a vendor function behind a pointer returns. -/
  invoke : List Event → Ptr → List Word → Word

/-- The constants `nvenc_loader.c` takes from its headers and from the build. -/
structure Build where
  /-- Whether `_WIN32` is defined. -/
  win32 : Bool
  NVENC_LOAD_SUCCESS : Int
  NVENC_LOAD_FAILURE : Int
  NV_ENC_SUCCESS : NVENCSTATUS
  NV_ENCODE_API_FUNCTION_LIST_VER : Nat

/-- The macro `DEFAULT_LIBRARY_PATH`, one value per branch of `#ifdef _WIN32`. -/
def DEFAULT_LIBRARY_PATH (b : Build) : String :=
  if b.win32 then "nvEncodeAPI.dll" else "libnvidia-encode.so"

/-- The globals `dll_handle` and `api`, and the calls made so far. -/
structure State where
  dll_handle : Handle
  api : NV_ENCODE_API_FUNCTION_LIST
  trace : List Event
deriving DecidableEq, Repr

/-- The state of a freshly started process: both globals zero-initialised. -/
def State.init : State :=
  { dll_handle := 0, api := NV_ENCODE_API_FUNCTION_LIST.zero, trace := [] }

/-- The statement `dll_handle = DLL_LOAD(path)`. -/
def State.load (pf : Platform) (s : State) (path : String) : State :=
  { s with dll_handle := pf.DLL_LOAD s.trace path,
           trace := s.trace ++ [Event.dll_load path (pf.DLL_LOAD s.trace path)] }

/-- What `nvenc_load` hands back: its return value, the slot behind `error`
(absent when `error` is `NULL`) and the globals. -/
structure LoadReturn where
  result : Int
  error : Option (Option String)
  state : State
deriving DecidableEq, Repr

/-- The statement `if (error != NULL) { *error = msg; }`. -/
def setError (error : Option (Option String)) (msg : String) : Option (Option String) :=
  match error with
  | none => none
  | some _ => some (some msg)

/-- The function `nvenc_load`.  `library_path` is `none` for `NULL`; `error` is
`none` for `NULL` and otherwise holds what `*error` holds on entry. -/
def nvenc_load (b : Build) (pf : Platform) (s : State)
    (library_path : Option String) (error : Option (Option String)) : LoadReturn :=
  let s1 : State :=
    match library_path with
    | some p => s.load pf p
    | none => s.load pf (DEFAULT_LIBRARY_PATH b)
  if s1.dll_handle = 0 then
    { result := b.NVENC_LOAD_FAILURE,
      error := setError error "failed to load nvenc library",
      state := s1 }
  else
    let create_instance : Ptr := pf.DLL_LINK s1.trace s1.dll_handle "NvEncodeAPICreateInstance"
    let s2 : State :=
      { s1 with trace := s1.trace ++
          [Event.dll_link s1.dll_handle "NvEncodeAPICreateInstance" create_instance] }
    if create_instance = 0 then
      { result := b.NVENC_LOAD_FAILURE,
        error := setError error "failed to link NvEncodeAPICreateInstance",
        state := s2 }
    else
      let api0 : NV_ENCODE_API_FUNCTION_LIST :=
        { NV_ENCODE_API_FUNCTION_LIST.zero with version := b.NV_ENCODE_API_FUNCTION_LIST_VER }
      let r := pf.create_instance s2.trace create_instance api0
      let s3 : State :=
        { s2 with api := r.2,
                  trace := s2.trace ++ [Event.create_instance create_instance api0] }
      if r.1 ≠ b.NV_ENC_SUCCESS then
        { result := b.NVENC_LOAD_FAILURE,
          error := setError error "failed to initialize API",
          state := s3 }
      else
        { result := b.NVENC_LOAD_SUCCESS, error := error, state := s3 }

/-- The function `nvenc_unload`. -/
def nvenc_unload (s : State) : State :=
  if s.dll_handle ≠ 0 then
    { s with trace := s.trace ++ [Event.dll_unload s.dll_handle] }
  else
    s

/-- A call through a function pointer: undefined (`none`) when the pointer is
`NULL`, otherwise the vendor function's return value, the call recorded. -/
def callPtr (pf : Platform) (s : State) (f : Ptr) (args : List Word) : Option (Word × State) :=
  if f = 0 then none
  else some (pf.invoke s.trace f args, { s with trace := s.trace ++ [Event.call f args] })

/-- The function `NvEncOpenEncodeSession`. -/
def NvEncOpenEncodeSession (pf : Platform) (s : State) (device deviceType encoder : Word) : Option (Word × State) :=
  callPtr pf s s.api.nvEncOpenEncodeSession [device, deviceType, encoder]

/-- The function `NvEncGetEncodeGUIDCount`. -/
def NvEncGetEncodeGUIDCount (pf : Platform) (s : State) (encoder encodeGUIDCount : Word) : Option (Word × State) :=
  callPtr pf s s.api.nvEncGetEncodeGUIDCount [encoder, encodeGUIDCount]

/-- The function `NvEncGetEncodeGUIDs`. -/
def NvEncGetEncodeGUIDs (pf : Platform) (s : State) (encoder GUIDs guidArraySize GUIDCount : Word) : Option (Word × State) :=
  callPtr pf s s.api.nvEncGetEncodeGUIDs [encoder, GUIDs, guidArraySize, GUIDCount]

/-- The function `NvEncGetEncodeProfileGUIDCount`. -/
def NvEncGetEncodeProfileGUIDCount (pf : Platform) (s : State) (encoder encodeGUID encodeProfileGUIDCount : Word) : Option (Word × State) :=
  callPtr pf s s.api.nvEncGetEncodeProfileGUIDCount [encoder, encodeGUID, encodeProfileGUIDCount]

/-- The function `NvEncGetEncodeProfileGUIDs`. -/
def NvEncGetEncodeProfileGUIDs (pf : Platform) (s : State) (encoder encodeGUID profileGUIDs guidArraySize GUIDCount : Word) : Option (Word × State) :=
  callPtr pf s s.api.nvEncGetEncodeProfileGUIDs [encoder, encodeGUID, profileGUIDs, guidArraySize, GUIDCount]

/-- The function `NvEncGetInputFormatCount`. -/
def NvEncGetInputFormatCount (pf : Platform) (s : State) (encoder encodeGUID inputFmtCount : Word) : Option (Word × State) :=
  callPtr pf s s.api.nvEncGetInputFormatCount [encoder, encodeGUID, inputFmtCount]

/-- The function `NvEncGetInputFormats`. -/
def NvEncGetInputFormats (pf : Platform) (s : State) (encoder encodeGUID inputFmts inputFmtArraySize inputFmtCount : Word) : Option (Word × State) :=
  callPtr pf s s.api.nvEncGetInputFormats [encoder, encodeGUID, inputFmts, inputFmtArraySize, inputFmtCount]

/-- The function `NvEncGetEncodeCaps`. -/
def NvEncGetEncodeCaps (pf : Platform) (s : State) (encoder encodeGUID capsParam capsVal : Word) : Option (Word × State) :=
  callPtr pf s s.api.nvEncGetEncodeCaps [encoder, encodeGUID, capsParam, capsVal]

/-- The function `NvEncGetEncodePresetCount`. -/
def NvEncGetEncodePresetCount (pf : Platform) (s : State) (encoder encodeGUID encodePresetGUIDCount : Word) : Option (Word × State) :=
  callPtr pf s s.api.nvEncGetEncodePresetCount [encoder, encodeGUID, encodePresetGUIDCount]

/-- The function `NvEncGetEncodePresetGUIDs`. -/
def NvEncGetEncodePresetGUIDs (pf : Platform) (s : State) (encoder encodeGUID presetGUIDs guidArraySize encodePresetGUIDCount : Word) : Option (Word × State) :=
  callPtr pf s s.api.nvEncGetEncodePresetGUIDs [encoder, encodeGUID, presetGUIDs, guidArraySize, encodePresetGUIDCount]

/-- The function `NvEncGetEncodePresetConfig`. -/
def NvEncGetEncodePresetConfig (pf : Platform) (s : State) (encoder encodeGUID presetGUID presetConfig : Word) : Option (Word × State) :=
  callPtr pf s s.api.nvEncGetEncodePresetConfig [encoder, encodeGUID, presetGUID, presetConfig]

/-- The function `NvEncGetEncodePresetConfigEx`. -/
def NvEncGetEncodePresetConfigEx (pf : Platform) (s : State) (encoder encodeGUID presetGUID tuningInfo presetConfig : Word) : Option (Word × State) :=
  callPtr pf s s.api.nvEncGetEncodePresetConfigEx [encoder, encodeGUID, presetGUID, tuningInfo, presetConfig]

/-- The function `NvEncInitializeEncoder`. -/
def NvEncInitializeEncoder (pf : Platform) (s : State) (encoder createEncodeParams : Word) : Option (Word × State) :=
  callPtr pf s s.api.nvEncInitializeEncoder [encoder, createEncodeParams]

/-- The function `NvEncCreateInputBuffer`. -/
def NvEncCreateInputBuffer (pf : Platform) (s : State) (encoder createInputBufferParams : Word) : Option (Word × State) :=
  callPtr pf s s.api.nvEncCreateInputBuffer [encoder, createInputBufferParams]

/-- The function `NvEncDestroyInputBuffer`. -/
def NvEncDestroyInputBuffer (pf : Platform) (s : State) (encoder inputBuffer : Word) : Option (Word × State) :=
  callPtr pf s s.api.nvEncDestroyInputBuffer [encoder, inputBuffer]

/-- The function `NvEncSetIOCudaStreams`. -/
def NvEncSetIOCudaStreams (pf : Platform) (s : State) (encoder inputStream outputStream : Word) : Option (Word × State) :=
  callPtr pf s s.api.nvEncSetIOCudaStreams [encoder, inputStream, outputStream]

/-- The function `NvEncCreateBitstreamBuffer`. -/
def NvEncCreateBitstreamBuffer (pf : Platform) (s : State) (encoder createBitstreamBufferParams : Word) : Option (Word × State) :=
  callPtr pf s s.api.nvEncCreateBitstreamBuffer [encoder, createBitstreamBufferParams]

/-- The function `NvEncDestroyBitstreamBuffer`. -/
def NvEncDestroyBitstreamBuffer (pf : Platform) (s : State) (encoder bitstreamBuffer : Word) : Option (Word × State) :=
  callPtr pf s s.api.nvEncDestroyBitstreamBuffer [encoder, bitstreamBuffer]

/-- The function `NvEncEncodePicture`. -/
def NvEncEncodePicture (pf : Platform) (s : State) (encoder encodePicParams : Word) : Option (Word × State) :=
  callPtr pf s s.api.nvEncEncodePicture [encoder, encodePicParams]

/-- The function `NvEncLockBitstream`. -/
def NvEncLockBitstream (pf : Platform) (s : State) (encoder lockBitstreamBufferParams : Word) : Option (Word × State) :=
  callPtr pf s s.api.nvEncLockBitstream [encoder, lockBitstreamBufferParams]

/-- The function `NvEncUnlockBitstream`. -/
def NvEncUnlockBitstream (pf : Platform) (s : State) (encoder bitstreamBuffer : Word) : Option (Word × State) :=
  callPtr pf s s.api.nvEncUnlockBitstream [encoder, bitstreamBuffer]

/-- The function `NvEncLockInputBuffer`. -/
def NvEncLockInputBuffer (pf : Platform) (s : State) (encoder lockInputBufferParams : Word) : Option (Word × State) :=
  callPtr pf s s.api.nvEncLockInputBuffer [encoder, lockInputBufferParams]

/-- The function `NvEncUnlockInputBuffer`. -/
def NvEncUnlockInputBuffer (pf : Platform) (s : State) (encoder inputBuffer : Word) : Option (Word × State) :=
  callPtr pf s s.api.nvEncUnlockInputBuffer [encoder, inputBuffer]

/-- The function `NvEncGetEncodeStats`. -/
def NvEncGetEncodeStats (pf : Platform) (s : State) (encoder encodeStats : Word) : Option (Word × State) :=
  callPtr pf s s.api.nvEncGetEncodeStats [encoder, encodeStats]

/-- The function `NvEncGetSequenceParams`. -/
def NvEncGetSequenceParams (pf : Platform) (s : State) (encoder sequenceParamPayload : Word) : Option (Word × State) :=
  callPtr pf s s.api.nvEncGetSequenceParams [encoder, sequenceParamPayload]

/-- The function `NvEncGetSequenceParamEx`. -/
def NvEncGetSequenceParamEx (pf : Platform) (s : State) (encoder encInitParams sequenceParamPayload : Word) : Option (Word × State) :=
  callPtr pf s s.api.nvEncGetSequenceParamEx [encoder, encInitParams, sequenceParamPayload]

/-- The function `NvEncRegisterAsyncEvent`. -/
def NvEncRegisterAsyncEvent (pf : Platform) (s : State) (encoder eventParams : Word) : Option (Word × State) :=
  callPtr pf s s.api.nvEncRegisterAsyncEvent [encoder, eventParams]

/-- The function `NvEncUnregisterAsyncEvent`. -/
def NvEncUnregisterAsyncEvent (pf : Platform) (s : State) (encoder eventParams : Word) : Option (Word × State) :=
  callPtr pf s s.api.nvEncUnregisterAsyncEvent [encoder, eventParams]

/-- The function `NvEncMapInputResource`. -/
def NvEncMapInputResource (pf : Platform) (s : State) (encoder mapInputResParams : Word) : Option (Word × State) :=
  callPtr pf s s.api.nvEncMapInputResource [encoder, mapInputResParams]

/-- The function `NvEncUnmapInputResource`. -/
def NvEncUnmapInputResource (pf : Platform) (s : State) (encoder mappedInputBuffer : Word) : Option (Word × State) :=
  callPtr pf s s.api.nvEncUnmapInputResource [encoder, mappedInputBuffer]

/-- The function `NvEncDestroyEncoder`. -/
def NvEncDestroyEncoder (pf : Platform) (s : State) (encoder : Word) : Option (Word × State) :=
  callPtr pf s s.api.nvEncDestroyEncoder [encoder]

/-- The function `NvEncInvalidateRefFrames`. -/
def NvEncInvalidateRefFrames (pf : Platform) (s : State) (encoder invalidRefFrameTimeStamp : Word) : Option (Word × State) :=
  callPtr pf s s.api.nvEncInvalidateRefFrames [encoder, invalidRefFrameTimeStamp]

/-- The function `NvEncOpenEncodeSessionEx`. -/
def NvEncOpenEncodeSessionEx (pf : Platform) (s : State) (openSessionExParams encoder : Word) : Option (Word × State) :=
  callPtr pf s s.api.nvEncOpenEncodeSessionEx [openSessionExParams, encoder]

/-- The function `NvEncRegisterResource`. -/
def NvEncRegisterResource (pf : Platform) (s : State) (encoder registerResParams : Word) : Option (Word × State) :=
  callPtr pf s s.api.nvEncRegisterResource [encoder, registerResParams]

/-- The function `NvEncUnregisterResource`. -/
def NvEncUnregisterResource (pf : Platform) (s : State) (encoder registeredResource : Word) : Option (Word × State) :=
  callPtr pf s s.api.nvEncUnregisterResource [encoder, registeredResource]

/-- The function `NvEncReconfigureEncoder`. -/
def NvEncReconfigureEncoder (pf : Platform) (s : State) (encoder reInitEncodeParams : Word) : Option (Word × State) :=
  callPtr pf s s.api.nvEncReconfigureEncoder [encoder, reInitEncodeParams]

/-- The function `NvEncCreateMVBuffer`. -/
def NvEncCreateMVBuffer (pf : Platform) (s : State) (encoder createMVBufferParams : Word) : Option (Word × State) :=
  callPtr pf s s.api.nvEncCreateMVBuffer [encoder, createMVBufferParams]

/-- The function `NvEncDestroyMVBuffer`. -/
def NvEncDestroyMVBuffer (pf : Platform) (s : State) (encoder mvBuffer : Word) : Option (Word × State) :=
  callPtr pf s s.api.nvEncDestroyMVBuffer [encoder, mvBuffer]

/-- The function `NvEncRunMotionEstimationOnly`. -/
def NvEncRunMotionEstimationOnly (pf : Platform) (s : State) (encoder meOnlyParams : Word) : Option (Word × State) :=
  callPtr pf s s.api.nvEncRunMotionEstimationOnly [encoder, meOnlyParams]

/-- The function `NvEncGetLastErrorString`. -/
def NvEncGetLastErrorString (pf : Platform) (s : State) (encoder : Word) : Option (Word × State) :=
  callPtr pf s s.api.nvEncGetLastErrorString [encoder]

/-- The function `NvEncodeAPIGetMaxSupportedVersion`. -/
def NvEncodeAPIGetMaxSupportedVersion (pf : Platform) (s : State) (version : Word) :
    Option (Word × State) :=
  let max_supported_version : Ptr :=
    pf.DLL_LINK s.trace s.dll_handle "NvEncodeAPIGetMaxSupportedVersion"
  let s1 : State :=
    { s with trace := s.trace ++
        [Event.dll_link s.dll_handle "NvEncodeAPIGetMaxSupportedVersion" max_supported_version] }
  callPtr pf s1 max_supported_version [version]

/-- One call of a forwarding operation: which one, and its arguments in the
order of its C signature. -/
inductive ForwardCall where
  | NvEncOpenEncodeSession (device deviceType encoder : Word)
  | NvEncGetEncodeGUIDCount (encoder encodeGUIDCount : Word)
  | NvEncGetEncodeGUIDs (encoder GUIDs guidArraySize GUIDCount : Word)
  | NvEncGetEncodeProfileGUIDCount (encoder encodeGUID encodeProfileGUIDCount : Word)
  | NvEncGetEncodeProfileGUIDs (encoder encodeGUID profileGUIDs guidArraySize GUIDCount : Word)
  | NvEncGetInputFormatCount (encoder encodeGUID inputFmtCount : Word)
  | NvEncGetInputFormats (encoder encodeGUID inputFmts inputFmtArraySize inputFmtCount : Word)
  | NvEncGetEncodeCaps (encoder encodeGUID capsParam capsVal : Word)
  | NvEncGetEncodePresetCount (encoder encodeGUID encodePresetGUIDCount : Word)
  | NvEncGetEncodePresetGUIDs (encoder encodeGUID presetGUIDs guidArraySize encodePresetGUIDCount : Word)
  | NvEncGetEncodePresetConfig (encoder encodeGUID presetGUID presetConfig : Word)
  | NvEncGetEncodePresetConfigEx (encoder encodeGUID presetGUID tuningInfo presetConfig : Word)
  | NvEncInitializeEncoder (encoder createEncodeParams : Word)
  | NvEncCreateInputBuffer (encoder createInputBufferParams : Word)
  | NvEncDestroyInputBuffer (encoder inputBuffer : Word)
  | NvEncSetIOCudaStreams (encoder inputStream outputStream : Word)
  | NvEncCreateBitstreamBuffer (encoder createBitstreamBufferParams : Word)
  | NvEncDestroyBitstreamBuffer (encoder bitstreamBuffer : Word)
  | NvEncEncodePicture (encoder encodePicParams : Word)
  | NvEncLockBitstream (encoder lockBitstreamBufferParams : Word)
  | NvEncUnlockBitstream (encoder bitstreamBuffer : Word)
  | NvEncLockInputBuffer (encoder lockInputBufferParams : Word)
  | NvEncUnlockInputBuffer (encoder inputBuffer : Word)
  | NvEncGetEncodeStats (encoder encodeStats : Word)
  | NvEncGetSequenceParams (encoder sequenceParamPayload : Word)
  | NvEncGetSequenceParamEx (encoder encInitParams sequenceParamPayload : Word)
  | NvEncRegisterAsyncEvent (encoder eventParams : Word)
  | NvEncUnregisterAsyncEvent (encoder eventParams : Word)
  | NvEncMapInputResource (encoder mapInputResParams : Word)
  | NvEncUnmapInputResource (encoder mappedInputBuffer : Word)
  | NvEncDestroyEncoder (encoder : Word)
  | NvEncInvalidateRefFrames (encoder invalidRefFrameTimeStamp : Word)
  | NvEncOpenEncodeSessionEx (openSessionExParams encoder : Word)
  | NvEncRegisterResource (encoder registerResParams : Word)
  | NvEncUnregisterResource (encoder registeredResource : Word)
  | NvEncReconfigureEncoder (encoder reInitEncodeParams : Word)
  | NvEncCreateMVBuffer (encoder createMVBufferParams : Word)
  | NvEncDestroyMVBuffer (encoder mvBuffer : Word)
  | NvEncRunMotionEstimationOnly (encoder meOnlyParams : Word)
  | NvEncGetLastErrorString (encoder : Word)
deriving DecidableEq, Repr

/-- Runs the forwarding operation a `ForwardCall` names. -/
def ForwardCall.run (pf : Platform) (s : State) : ForwardCall → Option (Word × State)
  | .NvEncOpenEncodeSession device deviceType encoder => NvencLoader.NvEncOpenEncodeSession pf s device deviceType encoder
  | .NvEncGetEncodeGUIDCount encoder encodeGUIDCount => NvencLoader.NvEncGetEncodeGUIDCount pf s encoder encodeGUIDCount
  | .NvEncGetEncodeGUIDs encoder GUIDs guidArraySize GUIDCount => NvencLoader.NvEncGetEncodeGUIDs pf s encoder GUIDs guidArraySize GUIDCount
  | .NvEncGetEncodeProfileGUIDCount encoder encodeGUID encodeProfileGUIDCount => NvencLoader.NvEncGetEncodeProfileGUIDCount pf s encoder encodeGUID encodeProfileGUIDCount
  | .NvEncGetEncodeProfileGUIDs encoder encodeGUID profileGUIDs guidArraySize GUIDCount => NvencLoader.NvEncGetEncodeProfileGUIDs pf s encoder encodeGUID profileGUIDs guidArraySize GUIDCount
  | .NvEncGetInputFormatCount encoder encodeGUID inputFmtCount => NvencLoader.NvEncGetInputFormatCount pf s encoder encodeGUID inputFmtCount
  | .NvEncGetInputFormats encoder encodeGUID inputFmts inputFmtArraySize inputFmtCount => NvencLoader.NvEncGetInputFormats pf s encoder encodeGUID inputFmts inputFmtArraySize inputFmtCount
  | .NvEncGetEncodeCaps encoder encodeGUID capsParam capsVal => NvencLoader.NvEncGetEncodeCaps pf s encoder encodeGUID capsParam capsVal
  | .NvEncGetEncodePresetCount encoder encodeGUID encodePresetGUIDCount => NvencLoader.NvEncGetEncodePresetCount pf s encoder encodeGUID encodePresetGUIDCount
  | .NvEncGetEncodePresetGUIDs encoder encodeGUID presetGUIDs guidArraySize encodePresetGUIDCount => NvencLoader.NvEncGetEncodePresetGUIDs pf s encoder encodeGUID presetGUIDs guidArraySize encodePresetGUIDCount
  | .NvEncGetEncodePresetConfig encoder encodeGUID presetGUID presetConfig => NvencLoader.NvEncGetEncodePresetConfig pf s encoder encodeGUID presetGUID presetConfig
  | .NvEncGetEncodePresetConfigEx encoder encodeGUID presetGUID tuningInfo presetConfig => NvencLoader.NvEncGetEncodePresetConfigEx pf s encoder encodeGUID presetGUID tuningInfo presetConfig
  | .NvEncInitializeEncoder encoder createEncodeParams => NvencLoader.NvEncInitializeEncoder pf s encoder createEncodeParams
  | .NvEncCreateInputBuffer encoder createInputBufferParams => NvencLoader.NvEncCreateInputBuffer pf s encoder createInputBufferParams
  | .NvEncDestroyInputBuffer encoder inputBuffer => NvencLoader.NvEncDestroyInputBuffer pf s encoder inputBuffer
  | .NvEncSetIOCudaStreams encoder inputStream outputStream => NvencLoader.NvEncSetIOCudaStreams pf s encoder inputStream outputStream
  | .NvEncCreateBitstreamBuffer encoder createBitstreamBufferParams => NvencLoader.NvEncCreateBitstreamBuffer pf s encoder createBitstreamBufferParams
  | .NvEncDestroyBitstreamBuffer encoder bitstreamBuffer => NvencLoader.NvEncDestroyBitstreamBuffer pf s encoder bitstreamBuffer
  | .NvEncEncodePicture encoder encodePicParams => NvencLoader.NvEncEncodePicture pf s encoder encodePicParams
  | .NvEncLockBitstream encoder lockBitstreamBufferParams => NvencLoader.NvEncLockBitstream pf s encoder lockBitstreamBufferParams
  | .NvEncUnlockBitstream encoder bitstreamBuffer => NvencLoader.NvEncUnlockBitstream pf s encoder bitstreamBuffer
  | .NvEncLockInputBuffer encoder lockInputBufferParams => NvencLoader.NvEncLockInputBuffer pf s encoder lockInputBufferParams
  | .NvEncUnlockInputBuffer encoder inputBuffer => NvencLoader.NvEncUnlockInputBuffer pf s encoder inputBuffer
  | .NvEncGetEncodeStats encoder encodeStats => NvencLoader.NvEncGetEncodeStats pf s encoder encodeStats
  | .NvEncGetSequenceParams encoder sequenceParamPayload => NvencLoader.NvEncGetSequenceParams pf s encoder sequenceParamPayload
  | .NvEncGetSequenceParamEx encoder encInitParams sequenceParamPayload => NvencLoader.NvEncGetSequenceParamEx pf s encoder encInitParams sequenceParamPayload
  | .NvEncRegisterAsyncEvent encoder eventParams => NvencLoader.NvEncRegisterAsyncEvent pf s encoder eventParams
  | .NvEncUnregisterAsyncEvent encoder eventParams => NvencLoader.NvEncUnregisterAsyncEvent pf s encoder eventParams
  | .NvEncMapInputResource encoder mapInputResParams => NvencLoader.NvEncMapInputResource pf s encoder mapInputResParams
  | .NvEncUnmapInputResource encoder mappedInputBuffer => NvencLoader.NvEncUnmapInputResource pf s encoder mappedInputBuffer
  | .NvEncDestroyEncoder encoder => NvencLoader.NvEncDestroyEncoder pf s encoder
  | .NvEncInvalidateRefFrames encoder invalidRefFrameTimeStamp => NvencLoader.NvEncInvalidateRefFrames pf s encoder invalidRefFrameTimeStamp
  | .NvEncOpenEncodeSessionEx openSessionExParams encoder => NvencLoader.NvEncOpenEncodeSessionEx pf s openSessionExParams encoder
  | .NvEncRegisterResource encoder registerResParams => NvencLoader.NvEncRegisterResource pf s encoder registerResParams
  | .NvEncUnregisterResource encoder registeredResource => NvencLoader.NvEncUnregisterResource pf s encoder registeredResource
  | .NvEncReconfigureEncoder encoder reInitEncodeParams => NvencLoader.NvEncReconfigureEncoder pf s encoder reInitEncodeParams
  | .NvEncCreateMVBuffer encoder createMVBufferParams => NvencLoader.NvEncCreateMVBuffer pf s encoder createMVBufferParams
  | .NvEncDestroyMVBuffer encoder mvBuffer => NvencLoader.NvEncDestroyMVBuffer pf s encoder mvBuffer
  | .NvEncRunMotionEstimationOnly encoder meOnlyParams => NvencLoader.NvEncRunMotionEstimationOnly pf s encoder meOnlyParams
  | .NvEncGetLastErrorString encoder => NvencLoader.NvEncGetLastErrorString pf s encoder

/-- The table entry with the same name as the operation (the operation's name
with its first letter in lower case). -/
def ForwardCall.sameNamedEntry (t : NV_ENCODE_API_FUNCTION_LIST) : ForwardCall → Ptr
  | .NvEncOpenEncodeSession _ _ _ => t.nvEncOpenEncodeSession
  | .NvEncGetEncodeGUIDCount _ _ => t.nvEncGetEncodeGUIDCount
  | .NvEncGetEncodeGUIDs _ _ _ _ => t.nvEncGetEncodeGUIDs
  | .NvEncGetEncodeProfileGUIDCount _ _ _ => t.nvEncGetEncodeProfileGUIDCount
  | .NvEncGetEncodeProfileGUIDs _ _ _ _ _ => t.nvEncGetEncodeProfileGUIDs
  | .NvEncGetInputFormatCount _ _ _ => t.nvEncGetInputFormatCount
  | .NvEncGetInputFormats _ _ _ _ _ => t.nvEncGetInputFormats
  | .NvEncGetEncodeCaps _ _ _ _ => t.nvEncGetEncodeCaps
  | .NvEncGetEncodePresetCount _ _ _ => t.nvEncGetEncodePresetCount
  | .NvEncGetEncodePresetGUIDs _ _ _ _ _ => t.nvEncGetEncodePresetGUIDs
  | .NvEncGetEncodePresetConfig _ _ _ _ => t.nvEncGetEncodePresetConfig
  | .NvEncGetEncodePresetConfigEx _ _ _ _ _ => t.nvEncGetEncodePresetConfigEx
  | .NvEncInitializeEncoder _ _ => t.nvEncInitializeEncoder
  | .NvEncCreateInputBuffer _ _ => t.nvEncCreateInputBuffer
  | .NvEncDestroyInputBuffer _ _ => t.nvEncDestroyInputBuffer
  | .NvEncSetIOCudaStreams _ _ _ => t.nvEncSetIOCudaStreams
  | .NvEncCreateBitstreamBuffer _ _ => t.nvEncCreateBitstreamBuffer
  | .NvEncDestroyBitstreamBuffer _ _ => t.nvEncDestroyBitstreamBuffer
  | .NvEncEncodePicture _ _ => t.nvEncEncodePicture
  | .NvEncLockBitstream _ _ => t.nvEncLockBitstream
  | .NvEncUnlockBitstream _ _ => t.nvEncUnlockBitstream
  | .NvEncLockInputBuffer _ _ => t.nvEncLockInputBuffer
  | .NvEncUnlockInputBuffer _ _ => t.nvEncUnlockInputBuffer
  | .NvEncGetEncodeStats _ _ => t.nvEncGetEncodeStats
  | .NvEncGetSequenceParams _ _ => t.nvEncGetSequenceParams
  | .NvEncGetSequenceParamEx _ _ _ => t.nvEncGetSequenceParamEx
  | .NvEncRegisterAsyncEvent _ _ => t.nvEncRegisterAsyncEvent
  | .NvEncUnregisterAsyncEvent _ _ => t.nvEncUnregisterAsyncEvent
  | .NvEncMapInputResource _ _ => t.nvEncMapInputResource
  | .NvEncUnmapInputResource _ _ => t.nvEncUnmapInputResource
  | .NvEncDestroyEncoder _ => t.nvEncDestroyEncoder
  | .NvEncInvalidateRefFrames _ _ => t.nvEncInvalidateRefFrames
  | .NvEncOpenEncodeSessionEx _ _ => t.nvEncOpenEncodeSessionEx
  | .NvEncRegisterResource _ _ => t.nvEncRegisterResource
  | .NvEncUnregisterResource _ _ => t.nvEncUnregisterResource
  | .NvEncReconfigureEncoder _ _ => t.nvEncReconfigureEncoder
  | .NvEncCreateMVBuffer _ _ => t.nvEncCreateMVBuffer
  | .NvEncDestroyMVBuffer _ _ => t.nvEncDestroyMVBuffer
  | .NvEncRunMotionEstimationOnly _ _ => t.nvEncRunMotionEstimationOnly
  | .NvEncGetLastErrorString _ => t.nvEncGetLastErrorString

/-- The arguments of the call, in the order of the operation's signature. -/
def ForwardCall.arguments : ForwardCall → List Word
  | .NvEncOpenEncodeSession device deviceType encoder => [device, deviceType, encoder]
  | .NvEncGetEncodeGUIDCount encoder encodeGUIDCount => [encoder, encodeGUIDCount]
  | .NvEncGetEncodeGUIDs encoder GUIDs guidArraySize GUIDCount => [encoder, GUIDs, guidArraySize, GUIDCount]
  | .NvEncGetEncodeProfileGUIDCount encoder encodeGUID encodeProfileGUIDCount => [encoder, encodeGUID, encodeProfileGUIDCount]
  | .NvEncGetEncodeProfileGUIDs encoder encodeGUID profileGUIDs guidArraySize GUIDCount => [encoder, encodeGUID, profileGUIDs, guidArraySize, GUIDCount]
  | .NvEncGetInputFormatCount encoder encodeGUID inputFmtCount => [encoder, encodeGUID, inputFmtCount]
  | .NvEncGetInputFormats encoder encodeGUID inputFmts inputFmtArraySize inputFmtCount => [encoder, encodeGUID, inputFmts, inputFmtArraySize, inputFmtCount]
  | .NvEncGetEncodeCaps encoder encodeGUID capsParam capsVal => [encoder, encodeGUID, capsParam, capsVal]
  | .NvEncGetEncodePresetCount encoder encodeGUID encodePresetGUIDCount => [encoder, encodeGUID, encodePresetGUIDCount]
  | .NvEncGetEncodePresetGUIDs encoder encodeGUID presetGUIDs guidArraySize encodePresetGUIDCount => [encoder, encodeGUID, presetGUIDs, guidArraySize, encodePresetGUIDCount]
  | .NvEncGetEncodePresetConfig encoder encodeGUID presetGUID presetConfig => [encoder, encodeGUID, presetGUID, presetConfig]
  | .NvEncGetEncodePresetConfigEx encoder encodeGUID presetGUID tuningInfo presetConfig => [encoder, encodeGUID, presetGUID, tuningInfo, presetConfig]
  | .NvEncInitializeEncoder encoder createEncodeParams => [encoder, createEncodeParams]
  | .NvEncCreateInputBuffer encoder createInputBufferParams => [encoder, createInputBufferParams]
  | .NvEncDestroyInputBuffer encoder inputBuffer => [encoder, inputBuffer]
  | .NvEncSetIOCudaStreams encoder inputStream outputStream => [encoder, inputStream, outputStream]
  | .NvEncCreateBitstreamBuffer encoder createBitstreamBufferParams => [encoder, createBitstreamBufferParams]
  | .NvEncDestroyBitstreamBuffer encoder bitstreamBuffer => [encoder, bitstreamBuffer]
  | .NvEncEncodePicture encoder encodePicParams => [encoder, encodePicParams]
  | .NvEncLockBitstream encoder lockBitstreamBufferParams => [encoder, lockBitstreamBufferParams]
  | .NvEncUnlockBitstream encoder bitstreamBuffer => [encoder, bitstreamBuffer]
  | .NvEncLockInputBuffer encoder lockInputBufferParams => [encoder, lockInputBufferParams]
  | .NvEncUnlockInputBuffer encoder inputBuffer => [encoder, inputBuffer]
  | .NvEncGetEncodeStats encoder encodeStats => [encoder, encodeStats]
  | .NvEncGetSequenceParams encoder sequenceParamPayload => [encoder, sequenceParamPayload]
  | .NvEncGetSequenceParamEx encoder encInitParams sequenceParamPayload => [encoder, encInitParams, sequenceParamPayload]
  | .NvEncRegisterAsyncEvent encoder eventParams => [encoder, eventParams]
  | .NvEncUnregisterAsyncEvent encoder eventParams => [encoder, eventParams]
  | .NvEncMapInputResource encoder mapInputResParams => [encoder, mapInputResParams]
  | .NvEncUnmapInputResource encoder mappedInputBuffer => [encoder, mappedInputBuffer]
  | .NvEncDestroyEncoder encoder => [encoder]
  | .NvEncInvalidateRefFrames encoder invalidRefFrameTimeStamp => [encoder, invalidRefFrameTimeStamp]
  | .NvEncOpenEncodeSessionEx openSessionExParams encoder => [openSessionExParams, encoder]
  | .NvEncRegisterResource encoder registerResParams => [encoder, registerResParams]
  | .NvEncUnregisterResource encoder registeredResource => [encoder, registeredResource]
  | .NvEncReconfigureEncoder encoder reInitEncodeParams => [encoder, reInitEncodeParams]
  | .NvEncCreateMVBuffer encoder createMVBufferParams => [encoder, createMVBufferParams]
  | .NvEncDestroyMVBuffer encoder mvBuffer => [encoder, mvBuffer]
  | .NvEncRunMotionEstimationOnly encoder meOnlyParams => [encoder, meOnlyParams]
  | .NvEncGetLastErrorString encoder => [encoder]

/-! ## The platform loader's bookkeeping and the call history -/

/-- What one event does to the libraries the platform loader holds mapped: a
`DLL_LOAD` that returned a non-null handle maps that library once more, a
`DLL_UNLOAD` releases one mapping of its handle, nothing else matters. -/
def loaderStep (live : List Handle) : Event → List Handle
  | .dll_load _ h => if h = 0 then live else h :: live
  | .dll_unload h => live.erase h
  | _ => live

/-- The handles opened and not yet closed after a history of calls, one
occurrence per outstanding open. -/
def liveHandles (tr : List Event) : List Handle :=
  tr.foldl loaderStep []

/-- The library a handle names is currently mapped: it has been opened and not
yet closed. -/
def mapped (tr : List Event) (h : Handle) : Prop :=
  h ∈ liveHandles tr

instance (tr : List Event) (h : Handle) : Decidable (mapped tr h) := by
  unfold mapped; infer_instance

/-- The paths handed to `DLL_LOAD` in a history of calls, in order. -/
def openedPaths (tr : List Event) : List String :=
  tr.filterMap fun e => match e with
    | .dll_load path _ => some path
    | _ => none

/-- The handles handed to `DLL_UNLOAD` in a history of calls, in order. -/
def closedHandles (tr : List Event) : List Handle :=
  tr.filterMap fun e => match e with
    | .dll_unload h => some h
    | _ => none

/-- The factory calls in a history of calls, in order: the pointer called and
the record handed over. -/
def factoryCalls (tr : List Event) : List (Ptr × NV_ENCODE_API_FUNCTION_LIST) :=
  tr.filterMap fun e => match e with
    | .create_instance f arg => some (f, arg)
    | _ => none

/-! ## The stages of `nvenc_load`, named -/

/-- The path `nvenc_load` opens: the caller's, or the default when `NULL`. -/
def chosenPath (b : Build) (library_path : Option String) : String :=
  match library_path with
  | some p => p
  | none => DEFAULT_LIBRARY_PATH b

/-- The handle the platform returns for the open `nvenc_load` makes. -/
def openResult (b : Build) (pf : Platform) (s : State) (library_path : Option String) : Handle :=
  pf.DLL_LOAD s.trace (chosenPath b library_path)

/-- The history right after the open. -/
def traceAfterOpen (b : Build) (pf : Platform) (s : State) (library_path : Option String) :
    List Event :=
  s.trace ++ [Event.dll_load (chosenPath b library_path) (openResult b pf s library_path)]

/-- The address the platform returns for the factory symbol, asked of the
handle just opened. -/
def linkResult (b : Build) (pf : Platform) (s : State) (library_path : Option String) : Ptr :=
  pf.DLL_LINK (traceAfterOpen b pf s library_path) (openResult b pf s library_path)
    "NvEncodeAPICreateInstance"

/-- The history right after the symbol resolution. -/
def traceAfterLink (b : Build) (pf : Platform) (s : State) (library_path : Option String) :
    List Event :=
  traceAfterOpen b pf s library_path ++
    [Event.dll_link (openResult b pf s library_path) "NvEncodeAPICreateInstance"
      (linkResult b pf s library_path)]

/-- The record `nvenc_load` hands to the factory: all zero but for the tag. -/
def factoryArgument (b : Build) : NV_ENCODE_API_FUNCTION_LIST :=
  { NV_ENCODE_API_FUNCTION_LIST.zero with version := b.NV_ENCODE_API_FUNCTION_LIST_VER }

/-- The factory's answer at the point `nvenc_load` calls it: its status and
the record as it leaves it. -/
def factoryResult (b : Build) (pf : Platform) (s : State) (library_path : Option String) :
    NVENCSTATUS × NV_ENCODE_API_FUNCTION_LIST :=
  pf.create_instance (traceAfterLink b pf s library_path) (linkResult b pf s library_path)
    (factoryArgument b)

/-! ## Sequences of calls -/

/-- One call into the shim. -/
inductive Action where
  | load (library_path : Option String) (error : Option (Option String))
  | unload
  | forward (c : ForwardCall)
deriving DecidableEq, Repr

/-- The globals after one call; `none` when the call is undefined (a call
through a null pointer). -/
def step (b : Build) (pf : Platform) (s : State) : Action → Option State
  | .load library_path error => some (nvenc_load b pf s library_path error).state
  | .unload => some (nvenc_unload s)
  | .forward c => (c.run pf s).map Prod.snd

/-- The globals after a sequence of calls, first call first. -/
def runActions (b : Build) (pf : Platform) (s : State) : List Action → Option State
  | [] => some s
  | a :: rest =>
    match step b pf s a with
    | none => none
    | some s1 => runActions b pf s1 rest

/-- A state some sequence of calls reaches from the initial state. -/
def Reachable (b : Build) (pf : Platform) (s : State) : Prop :=
  ∃ actions : List Action, runActions b pf State.init actions = some s

/-- The platform answers alike at a path whatever happened before: the open of
that path, the resolution of the factory symbol, and the factory itself. -/
def Deterministic (pf : Platform) (path : String) : Prop :=
  (∀ tr tr1 : List Event, pf.DLL_LOAD tr path = pf.DLL_LOAD tr1 path) ∧
  (∀ (tr tr1 : List Event) (h : Handle),
    pf.DLL_LINK tr h "NvEncodeAPICreateInstance" = pf.DLL_LINK tr1 h "NvEncodeAPICreateInstance") ∧
  (∀ (tr tr1 : List Event) (f : Ptr) (t : NV_ENCODE_API_FUNCTION_LIST),
    pf.create_instance tr f t = pf.create_instance tr1 f t)

/-! ## A stub platform to run the definitions on -/

/-- A build for a non-Windows target. -/
def stubBuild : Build :=
  { win32 := false, NVENC_LOAD_SUCCESS := 0, NVENC_LOAD_FAILURE := 1,
    NV_ENC_SUCCESS := 0, NV_ENCODE_API_FUNCTION_LIST_VER := 2 }

/-- A fully populated table, each entry with its own address. -/
def stubTable : NV_ENCODE_API_FUNCTION_LIST :=
  { version := 2,
    nvEncOpenEncodeSession := 101,
    nvEncGetEncodeGUIDCount := 102,
    nvEncGetEncodeGUIDs := 103,
    nvEncGetEncodeProfileGUIDCount := 104,
    nvEncGetEncodeProfileGUIDs := 105,
    nvEncGetInputFormatCount := 106,
    nvEncGetInputFormats := 107,
    nvEncGetEncodeCaps := 108,
    nvEncGetEncodePresetCount := 109,
    nvEncGetEncodePresetGUIDs := 110,
    nvEncGetEncodePresetConfig := 111,
    nvEncGetEncodePresetConfigEx := 112,
    nvEncInitializeEncoder := 113,
    nvEncCreateInputBuffer := 114,
    nvEncDestroyInputBuffer := 115,
    nvEncSetIOCudaStreams := 116,
    nvEncCreateBitstreamBuffer := 117,
    nvEncDestroyBitstreamBuffer := 118,
    nvEncEncodePicture := 119,
    nvEncLockBitstream := 120,
    nvEncUnlockBitstream := 121,
    nvEncLockInputBuffer := 122,
    nvEncUnlockInputBuffer := 123,
    nvEncGetEncodeStats := 124,
    nvEncGetSequenceParams := 125,
    nvEncGetSequenceParamEx := 126,
    nvEncRegisterAsyncEvent := 127,
    nvEncUnregisterAsyncEvent := 128,
    nvEncMapInputResource := 129,
    nvEncUnmapInputResource := 130,
    nvEncDestroyEncoder := 131,
    nvEncInvalidateRefFrames := 132,
    nvEncOpenEncodeSessionEx := 133,
    nvEncRegisterResource := 134,
    nvEncUnregisterResource := 135,
    nvEncReconfigureEncoder := 136,
    nvEncCreateMVBuffer := 137,
    nvEncDestroyMVBuffer := 138,
    nvEncRunMotionEstimationOnly := 139,
    nvEncGetLastErrorString := 140 }

/-- A stub platform: the default library opens as handle `7`, a library without
the factory symbol as handle `8`, a library whose factory fills the record and
then refuses as handle `6`, a library whose factory fills one entry and then
refuses as handle `4`; nothing else opens. -/
def stubPlatform : Platform :=
  { DLL_LOAD := fun _ path =>
      if path = "libnvidia-encode.so" then 7
      else if path = "nofactory.so" then 8
      else if path = "refusing.so" then 6
      else if path = "partial.so" then 4
      else 0,
    DLL_LINK := fun _ h name =>
      if h = 7 then
        (if name = "NvEncodeAPICreateInstance" then 9
         else if name = "NvEncodeAPIGetMaxSupportedVersion" then 11 else 0)
      else if h = 6 then
        (if name = "NvEncodeAPICreateInstance" then 5 else 0)
      else if h = 4 then
        (if name = "NvEncodeAPICreateInstance" then 3 else 0)
      else 0,
    create_instance := fun _ f t =>
      if f = 9 then (0, { stubTable with version := t.version })
      else if f = 3 then (15, { t with nvEncOpenEncodeSession := 101 })
      else (15, stubTable),
    invoke := fun _ f args => 1000 * f + args.length }

/-- The stub platform's state after `nvenc_load(NULL, NULL)` from the start. -/
def stubLoaded : State :=
  (nvenc_load stubBuild stubPlatform State.init none none).state

/-! ## `nvenc_load` stage by stage -/

/-- The state `nvenc_load` leaves when the open fails. -/
def stateOpenFailed (b : Build) (pf : Platform) (s : State) (library_path : Option String) :
    State :=
  { dll_handle := openResult b pf s library_path, api := s.api,
    trace := traceAfterOpen b pf s library_path }

/-- The state `nvenc_load` leaves when the factory symbol is absent. -/
def stateLinkFailed (b : Build) (pf : Platform) (s : State) (library_path : Option String) :
    State :=
  { dll_handle := openResult b pf s library_path, api := s.api,
    trace := traceAfterLink b pf s library_path }

/-- The state `nvenc_load` leaves once the factory has been called. -/
def stateNegotiated (b : Build) (pf : Platform) (s : State) (library_path : Option String) :
    State :=
  { dll_handle := openResult b pf s library_path,
    api := (factoryResult b pf s library_path).2,
    trace := traceAfterLink b pf s library_path ++
      [Event.create_instance (linkResult b pf s library_path) (factoryArgument b)] }

theorem nvenc_load_open_failed (b : Build) (pf : Platform) (s : State)
    (library_path : Option String) (error : Option (Option String))
    (h : openResult b pf s library_path = 0) :
    nvenc_load b pf s library_path error =
      { result := b.NVENC_LOAD_FAILURE,
        error := setError error "failed to load nvenc library",
        state := stateOpenFailed b pf s library_path } := by
  cases library_path <;>
    simp_all [nvenc_load, State.load, openResult, chosenPath, stateOpenFailed, traceAfterOpen]

theorem nvenc_load_link_failed (b : Build) (pf : Platform) (s : State)
    (library_path : Option String) (error : Option (Option String))
    (h : openResult b pf s library_path ≠ 0) (hl : linkResult b pf s library_path = 0) :
    nvenc_load b pf s library_path error =
      { result := b.NVENC_LOAD_FAILURE,
        error := setError error "failed to link NvEncodeAPICreateInstance",
        state := stateLinkFailed b pf s library_path } := by
  cases library_path <;>
    simp_all [nvenc_load, State.load, openResult, chosenPath, stateLinkFailed, traceAfterOpen,
      traceAfterLink, linkResult]

theorem nvenc_load_negotiation_failed (b : Build) (pf : Platform) (s : State)
    (library_path : Option String) (error : Option (Option String))
    (h : openResult b pf s library_path ≠ 0) (hl : linkResult b pf s library_path ≠ 0)
    (hs : (factoryResult b pf s library_path).1 ≠ b.NV_ENC_SUCCESS) :
    nvenc_load b pf s library_path error =
      { result := b.NVENC_LOAD_FAILURE,
        error := setError error "failed to initialize API",
        state := stateNegotiated b pf s library_path } := by
  cases library_path <;>
    simp_all [nvenc_load, State.load, openResult, chosenPath, stateNegotiated, traceAfterOpen,
      traceAfterLink, linkResult, factoryResult, factoryArgument]

theorem nvenc_load_succeeded (b : Build) (pf : Platform) (s : State)
    (library_path : Option String) (error : Option (Option String))
    (h : openResult b pf s library_path ≠ 0) (hl : linkResult b pf s library_path ≠ 0)
    (hs : (factoryResult b pf s library_path).1 = b.NV_ENC_SUCCESS) :
    nvenc_load b pf s library_path error =
      { result := b.NVENC_LOAD_SUCCESS, error := error,
        state := stateNegotiated b pf s library_path } := by
  cases library_path <;>
    simp_all [nvenc_load, State.load, openResult, chosenPath, stateNegotiated, traceAfterOpen,
      traceAfterLink, linkResult, factoryResult, factoryArgument]

/-- The four ways through `nvenc_load`, each with what it returns. -/
theorem nvenc_load_cases (b : Build) (pf : Platform) (s : State)
    (library_path : Option String) (error : Option (Option String)) :
    (openResult b pf s library_path = 0 ∧
      nvenc_load b pf s library_path error =
        { result := b.NVENC_LOAD_FAILURE,
          error := setError error "failed to load nvenc library",
          state := stateOpenFailed b pf s library_path }) ∨
    (openResult b pf s library_path ≠ 0 ∧ linkResult b pf s library_path = 0 ∧
      nvenc_load b pf s library_path error =
        { result := b.NVENC_LOAD_FAILURE,
          error := setError error "failed to link NvEncodeAPICreateInstance",
          state := stateLinkFailed b pf s library_path }) ∨
    (openResult b pf s library_path ≠ 0 ∧ linkResult b pf s library_path ≠ 0 ∧
      (factoryResult b pf s library_path).1 ≠ b.NV_ENC_SUCCESS ∧
      nvenc_load b pf s library_path error =
        { result := b.NVENC_LOAD_FAILURE,
          error := setError error "failed to initialize API",
          state := stateNegotiated b pf s library_path }) ∨
    (openResult b pf s library_path ≠ 0 ∧ linkResult b pf s library_path ≠ 0 ∧
      (factoryResult b pf s library_path).1 = b.NV_ENC_SUCCESS ∧
      nvenc_load b pf s library_path error =
        { result := b.NVENC_LOAD_SUCCESS, error := error,
          state := stateNegotiated b pf s library_path }) := by
  by_cases h : openResult b pf s library_path = 0
  · exact Or.inl ⟨h, nvenc_load_open_failed b pf s library_path error h⟩
  · by_cases hl : linkResult b pf s library_path = 0
    · exact Or.inr (Or.inl ⟨h, hl, nvenc_load_link_failed b pf s library_path error h hl⟩)
    · by_cases hs : (factoryResult b pf s library_path).1 = b.NV_ENC_SUCCESS
      · exact Or.inr (Or.inr (Or.inr
          ⟨h, hl, hs, nvenc_load_succeeded b pf s library_path error h hl hs⟩))
      · exact Or.inr (Or.inr (Or.inl
          ⟨h, hl, hs, nvenc_load_negotiation_failed b pf s library_path error h hl hs⟩))

/-! ## The return value of `nvenc_load` -/

/-- C1: with the platform loader and the vendor factory as parameters and the
two result codes distinct, `nvenc_load` returns `NVENC_LOAD_SUCCESS` exactly
when the open yields a non-null handle, the factory symbol resolves to a
non-null address and the factory returns `NV_ENC_SUCCESS`; in every other case
it returns `NVENC_LOAD_FAILURE`. -/
theorem nvenc_load_result (b : Build) (pf : Platform) (s : State)
    (library_path : Option String) (error : Option (Option String))
    (hcodes : b.NVENC_LOAD_SUCCESS ≠ b.NVENC_LOAD_FAILURE) :
    ((nvenc_load b pf s library_path error).result = b.NVENC_LOAD_SUCCESS ↔
      (openResult b pf s library_path ≠ 0 ∧ linkResult b pf s library_path ≠ 0 ∧
        (factoryResult b pf s library_path).1 = b.NV_ENC_SUCCESS)) ∧
    (¬ (openResult b pf s library_path ≠ 0 ∧ linkResult b pf s library_path ≠ 0 ∧
        (factoryResult b pf s library_path).1 = b.NV_ENC_SUCCESS) →
      (nvenc_load b pf s library_path error).result = b.NVENC_LOAD_FAILURE) := by
  rcases nvenc_load_cases b pf s library_path error with
    ⟨h, e⟩ | ⟨h, hl, e⟩ | ⟨h, hl, hs, e⟩ | ⟨h, hl, hs, e⟩
  · rw [e]; simp [h, hcodes.symm]
  · rw [e]; simp [hl, hcodes.symm]
  · rw [e]; simp [hs, hcodes.symm]
  · rw [e]; simp [h, hl, hs]

/-- C1 on the stub platform: the default library loads, so the result is the
success code. -/
theorem nvenc_load_result_witness :
    stubBuild.NVENC_LOAD_SUCCESS ≠ stubBuild.NVENC_LOAD_FAILURE ∧
    (((nvenc_load stubBuild stubPlatform State.init none none).result =
        stubBuild.NVENC_LOAD_SUCCESS ↔
      (openResult stubBuild stubPlatform State.init none ≠ 0 ∧
        linkResult stubBuild stubPlatform State.init none ≠ 0 ∧
        (factoryResult stubBuild stubPlatform State.init none).1 = stubBuild.NV_ENC_SUCCESS)) ∧
    (¬ (openResult stubBuild stubPlatform State.init none ≠ 0 ∧
        linkResult stubBuild stubPlatform State.init none ≠ 0 ∧
        (factoryResult stubBuild stubPlatform State.init none).1 = stubBuild.NV_ENC_SUCCESS) →
      (nvenc_load stubBuild stubPlatform State.init none none).result =
        stubBuild.NVENC_LOAD_FAILURE)) :=
  ⟨by decide, nvenc_load_result stubBuild stubPlatform State.init none none (by decide)⟩

/-! ## The diagnostic string -/

/-- C2: when `nvenc_load` fails and `error` is not `NULL`, the string behind
`error` names the stage: the open message exactly when the open fails, the
link message exactly when the open succeeds and the factory symbol is absent,
the initialisation message exactly when both succeed and the factory returns a
status other than success; the three messages differ pairwise. -/
theorem nvenc_load_error_string (b : Build) (pf : Platform) (s : State)
    (library_path : Option String) (slot : Option String)
    (hcodes : b.NVENC_LOAD_SUCCESS ≠ b.NVENC_LOAD_FAILURE)
    (hfail : (nvenc_load b pf s library_path (some slot)).result = b.NVENC_LOAD_FAILURE) :
    ((nvenc_load b pf s library_path (some slot)).error =
        some (some "failed to load nvenc library") ↔
      openResult b pf s library_path = 0) ∧
    ((nvenc_load b pf s library_path (some slot)).error =
        some (some "failed to link NvEncodeAPICreateInstance") ↔
      (openResult b pf s library_path ≠ 0 ∧ linkResult b pf s library_path = 0)) ∧
    ((nvenc_load b pf s library_path (some slot)).error =
        some (some "failed to initialize API") ↔
      (openResult b pf s library_path ≠ 0 ∧ linkResult b pf s library_path ≠ 0 ∧
        (factoryResult b pf s library_path).1 ≠ b.NV_ENC_SUCCESS)) ∧
    "failed to load nvenc library" ≠ "failed to link NvEncodeAPICreateInstance" ∧
    "failed to load nvenc library" ≠ "failed to initialize API" ∧
    "failed to link NvEncodeAPICreateInstance" ≠ "failed to initialize API" := by
  rcases nvenc_load_cases b pf s library_path (some slot) with
    ⟨h, e⟩ | ⟨h, hl, e⟩ | ⟨h, hl, hs, e⟩ | ⟨h, hl, hs, e⟩
  · rw [e]; simp [h, setError]
  · rw [e]; simp [h, hl, setError]
  · rw [e]; simp [h, hl, hs, setError]
  · rw [e] at hfail; exact absurd hfail hcodes

/-- C2 on the stub platform: a path that does not open, from the start. -/
theorem nvenc_load_error_string_witness :
    stubBuild.NVENC_LOAD_SUCCESS ≠ stubBuild.NVENC_LOAD_FAILURE ∧
    (nvenc_load stubBuild stubPlatform State.init (some "missing.so") (some none)).result =
      stubBuild.NVENC_LOAD_FAILURE ∧
    (nvenc_load stubBuild stubPlatform State.init (some "missing.so") (some none)).error =
      some (some "failed to load nvenc library") :=
  ⟨by decide, by decide,
    (nvenc_load_error_string stubBuild stubPlatform State.init (some "missing.so") none
      (by decide) (by decide)).1.2 (by decide)⟩

/-! ## The forwarding operations -/

theorem sameNamedEntry_mem_entries (t : NV_ENCODE_API_FUNCTION_LIST) (c : ForwardCall) :
    c.sameNamedEntry t ∈ t.entries := by
  cases c <;> simp [ForwardCall.sameNamedEntry, NV_ENCODE_API_FUNCTION_LIST.entries]

theorem callPtr_of_ne_zero (pf : Platform) (s : State) (f : Ptr) (args : List Word)
    (hf : f ≠ 0) :
    callPtr pf s f args =
      some (pf.invoke s.trace f args, { s with trace := s.trace ++ [Event.call f args] }) := by
  simp [callPtr, hf]

/-- C3: on a table whose entries are all populated, each forwarding operation
calls the table entry of its own name exactly once, with its own arguments in
their order, returns what that entry returns, and leaves `dll_handle` and `api`
as they were. -/
theorem forward_pass_through (pf : Platform) (s : State) (c : ForwardCall)
    (hpop : s.api.populated) :
    ∃ s1 : State,
      c.run pf s = some (pf.invoke s.trace (c.sameNamedEntry s.api) c.arguments, s1) ∧
      s1.trace = s.trace ++ [Event.call (c.sameNamedEntry s.api) c.arguments] ∧
      s1.dll_handle = s.dll_handle ∧ s1.api = s.api := by
  have hf : c.sameNamedEntry s.api ≠ 0 := hpop _ (sameNamedEntry_mem_entries s.api c)
  refine ⟨{ s with trace := s.trace ++ [Event.call (c.sameNamedEntry s.api) c.arguments] },
    ?_, rfl, rfl, rfl⟩
  rw [← callPtr_of_ne_zero pf s _ _ hf]
  cases c <;> rfl

/-- C3 on the stub platform, after a load: `NvEncGetEncodeGUIDs` with four
marker arguments. -/
theorem forward_pass_through_witness :
    stubLoaded.api.populated ∧
    ∃ s1 : State,
      (ForwardCall.NvEncGetEncodeGUIDs 21 22 23 24).run stubPlatform stubLoaded =
        some (stubPlatform.invoke stubLoaded.trace
          ((ForwardCall.NvEncGetEncodeGUIDs 21 22 23 24).sameNamedEntry stubLoaded.api)
          (ForwardCall.NvEncGetEncodeGUIDs 21 22 23 24).arguments, s1) ∧
      s1.trace = stubLoaded.trace ++
        [Event.call ((ForwardCall.NvEncGetEncodeGUIDs 21 22 23 24).sameNamedEntry stubLoaded.api)
          (ForwardCall.NvEncGetEncodeGUIDs 21 22 23 24).arguments] ∧
      s1.dll_handle = stubLoaded.dll_handle ∧ s1.api = stubLoaded.api :=
  ⟨by decide,
    forward_pass_through stubPlatform stubLoaded (ForwardCall.NvEncGetEncodeGUIDs 21 22 23 24)
      (by decide)⟩

/-! ## `nvenc_unload` -/

/-- C5: `nvenc_unload` makes exactly one platform call, a close of the held
handle, when the handle is non-null; it makes no call when the handle is null;
either way the table is what it was. -/
theorem nvenc_unload_effect (s : State) :
    (s.dll_handle ≠ 0 →
      (nvenc_unload s).trace = s.trace ++ [Event.dll_unload s.dll_handle]) ∧
    (s.dll_handle = 0 → (nvenc_unload s).trace = s.trace) ∧
    (nvenc_unload s).api = s.api := by
  by_cases h : s.dll_handle = 0 <;> simp [nvenc_unload, h]

/-- C5 on the stub platform, after a load: one close of handle `7`. -/
theorem nvenc_unload_effect_witness :
    (stubLoaded.dll_handle ≠ 0 →
      (nvenc_unload stubLoaded).trace = stubLoaded.trace ++
        [Event.dll_unload stubLoaded.dll_handle]) ∧
    (stubLoaded.dll_handle = 0 → (nvenc_unload stubLoaded).trace = stubLoaded.trace) ∧
    (nvenc_unload stubLoaded).api = stubLoaded.api :=
  nvenc_unload_effect stubLoaded

/-! ## The path that is opened -/

theorem openedPaths_append (tr tr1 : List Event) :
    openedPaths (tr ++ tr1) = openedPaths tr ++ openedPaths tr1 := by
  simp [openedPaths, List.filterMap_append]

theorem factoryCalls_append (tr tr1 : List Event) :
    factoryCalls (tr ++ tr1) = factoryCalls tr ++ factoryCalls tr1 := by
  simp [factoryCalls, List.filterMap_append]

theorem closedHandles_append (tr tr1 : List Event) :
    closedHandles (tr ++ tr1) = closedHandles tr ++ closedHandles tr1 := by
  simp [closedHandles, List.filterMap_append]

/-- C8: `nvenc_load` makes exactly one open call, with the caller's
`library_path` when it is non-null and with the platform default name when it
is null: `nvEncodeAPI.dll` on a Windows build, `libnvidia-encode.so` otherwise. -/
theorem nvenc_load_opened_path (b : Build) (pf : Platform) (s : State)
    (library_path : Option String) (error : Option (Option String)) :
    openedPaths (nvenc_load b pf s library_path error).state.trace =
      openedPaths s.trace ++
        [match library_path with
          | some p => p
          | none => if b.win32 = true then "nvEncodeAPI.dll" else "libnvidia-encode.so"] := by
  have hp : chosenPath b library_path =
      (match library_path with
        | some p => p
        | none => if b.win32 = true then "nvEncodeAPI.dll" else "libnvidia-encode.so") := by
    cases library_path <;> simp [chosenPath, DEFAULT_LIBRARY_PATH]
  rw [← hp]
  rcases nvenc_load_cases b pf s library_path error with
    ⟨_, e⟩ | ⟨_, _, e⟩ | ⟨_, _, _, e⟩ | ⟨_, _, _, e⟩ <;>
  · rw [e]
    simp [stateOpenFailed, stateLinkFailed, stateNegotiated, traceAfterLink, traceAfterOpen,
      openedPaths_append]
    simp [openedPaths]

/-! ## The version query -/

/-- C9: `NvEncodeAPIGetMaxSupportedVersion` resolves its symbol from the held
handle when it is called and returns what the resolved function returns on the
caller's argument; two states with the same handle and history but any two
tables give the same value; the table is left as it was. -/
theorem max_supported_version_bypasses_table (pf : Platform) (s : State) (version : Word) :
    (pf.DLL_LINK s.trace s.dll_handle "NvEncodeAPIGetMaxSupportedVersion" ≠ 0 →
      ∃ s1 : State,
        NvEncodeAPIGetMaxSupportedVersion pf s version =
          some (pf.invoke
            (s.trace ++ [Event.dll_link s.dll_handle "NvEncodeAPIGetMaxSupportedVersion"
              (pf.DLL_LINK s.trace s.dll_handle "NvEncodeAPIGetMaxSupportedVersion")])
            (pf.DLL_LINK s.trace s.dll_handle "NvEncodeAPIGetMaxSupportedVersion")
            [version], s1) ∧
        s1.trace = s.trace ++
          [Event.dll_link s.dll_handle "NvEncodeAPIGetMaxSupportedVersion"
            (pf.DLL_LINK s.trace s.dll_handle "NvEncodeAPIGetMaxSupportedVersion"),
           Event.call (pf.DLL_LINK s.trace s.dll_handle "NvEncodeAPIGetMaxSupportedVersion")
            [version]] ∧
        s1.dll_handle = s.dll_handle) ∧
    (∀ s2 : State, s2.dll_handle = s.dll_handle → s2.trace = s.trace →
      (NvEncodeAPIGetMaxSupportedVersion pf s2 version).map Prod.fst =
        (NvEncodeAPIGetMaxSupportedVersion pf s version).map Prod.fst) ∧
    (∀ (r : Word) (s1 : State),
      NvEncodeAPIGetMaxSupportedVersion pf s version = some (r, s1) → s1.api = s.api) := by
  refine ⟨?_, ?_, ?_⟩
  · intro hf
    refine ⟨{ s with trace := s.trace ++
        [Event.dll_link s.dll_handle "NvEncodeAPIGetMaxSupportedVersion"
          (pf.DLL_LINK s.trace s.dll_handle "NvEncodeAPIGetMaxSupportedVersion"),
         Event.call (pf.DLL_LINK s.trace s.dll_handle "NvEncodeAPIGetMaxSupportedVersion")
          [version]] }, ?_, rfl, rfl⟩
    simp only [NvEncodeAPIGetMaxSupportedVersion]
    rw [callPtr_of_ne_zero _ _ _ _ hf]
    simp
  · intro s2 hh ht
    simp only [NvEncodeAPIGetMaxSupportedVersion, callPtr, hh, ht]
    split <;> simp
  · intro r s1 h
    simp only [NvEncodeAPIGetMaxSupportedVersion, callPtr] at h
    split at h
    · exact absurd h (by simp)
    · simp only [Option.some.injEq, Prod.mk.injEq] at h
      rw [← h.2]

/-- C9 on the stub platform, after a load, against the same handle and history
with an all-null table. -/
theorem max_supported_version_bypasses_table_witness :
    stubPlatform.DLL_LINK stubLoaded.trace stubLoaded.dll_handle
      "NvEncodeAPIGetMaxSupportedVersion" ≠ 0 ∧
    (NvEncodeAPIGetMaxSupportedVersion stubPlatform
        { stubLoaded with api := NV_ENCODE_API_FUNCTION_LIST.zero } 33).map Prod.fst =
      (NvEncodeAPIGetMaxSupportedVersion stubPlatform stubLoaded 33).map Prod.fst ∧
    (NvEncodeAPIGetMaxSupportedVersion stubPlatform stubLoaded 33).map Prod.fst = some 11001 :=
  ⟨by decide,
    (max_supported_version_bypasses_table stubPlatform stubLoaded 33).2.1
      { stubLoaded with api := NV_ENCODE_API_FUNCTION_LIST.zero } rfl rfl,
    by decide⟩

/-! ## The factory call -/

theorem factoryArgument_unpopulated (b : Build) : (factoryArgument b).unpopulated := by
  intro p hp
  simp [factoryArgument, NV_ENCODE_API_FUNCTION_LIST.entries,
    NV_ENCODE_API_FUNCTION_LIST.zero] at hp
  exact hp

/-- C10: when the open and the symbol resolution succeed, `nvenc_load` calls
the factory exactly once, on a record whose every function entry is null and
whose version tag is `NV_ENCODE_API_FUNCTION_LIST_VER`, whatever `api` held
before, and `api` afterwards is what the factory left in that record; when the
open or the resolution fails, the factory is not called and `api` is as it
was. -/
theorem nvenc_load_factory_call (b : Build) (pf : Platform) (s : State)
    (library_path : Option String) (error : Option (Option String)) :
    ((openResult b pf s library_path ≠ 0 ∧ linkResult b pf s library_path ≠ 0) →
      ∃ arg : NV_ENCODE_API_FUNCTION_LIST,
        arg.unpopulated ∧ arg.version = b.NV_ENCODE_API_FUNCTION_LIST_VER ∧
        factoryCalls (nvenc_load b pf s library_path error).state.trace =
          factoryCalls s.trace ++ [(linkResult b pf s library_path, arg)] ∧
        (nvenc_load b pf s library_path error).state.api =
          (pf.create_instance (traceAfterLink b pf s library_path)
            (linkResult b pf s library_path) arg).2) ∧
    ((openResult b pf s library_path = 0 ∨ linkResult b pf s library_path = 0) →
      factoryCalls (nvenc_load b pf s library_path error).state.trace = factoryCalls s.trace ∧
      (nvenc_load b pf s library_path error).state.api = s.api) := by
  rcases nvenc_load_cases b pf s library_path error with
    ⟨h, e⟩ | ⟨h, hl, e⟩ | ⟨h, hl, hs, e⟩ | ⟨h, hl, hs, e⟩
  · rw [e]
    refine ⟨fun hc => absurd h hc.1, fun _ => ?_⟩
    simp [stateOpenFailed, traceAfterOpen, factoryCalls_append]
    simp [factoryCalls]
  · rw [e]
    refine ⟨fun hc => absurd hl hc.2, fun _ => ?_⟩
    simp [stateLinkFailed, traceAfterLink, traceAfterOpen, factoryCalls_append]
    simp [factoryCalls]
  · rw [e]
    refine ⟨fun _ => ⟨factoryArgument b, factoryArgument_unpopulated b, rfl, ?_, rfl⟩,
      fun hc => ?_⟩
    · simp [stateNegotiated, traceAfterLink, traceAfterOpen, factoryCalls_append]
      simp [factoryCalls]
    · rcases hc with hc | hc
      · exact absurd hc h
      · exact absurd hc hl
  · rw [e]
    refine ⟨fun _ => ⟨factoryArgument b, factoryArgument_unpopulated b, rfl, ?_, rfl⟩,
      fun hc => ?_⟩
    · simp [stateNegotiated, traceAfterLink, traceAfterOpen, factoryCalls_append]
      simp [factoryCalls]
    · rcases hc with hc | hc
      · exact absurd hc h
      · exact absurd hc hl

/-- C10 on the stub platform: a second load over a populated table still hands
the factory a null record, and a path that does not open calls no factory. -/
theorem nvenc_load_factory_call_witness :
    (openResult stubBuild stubPlatform stubLoaded none ≠ 0 ∧
      linkResult stubBuild stubPlatform stubLoaded none ≠ 0) ∧
    stubLoaded.api.populated ∧
    (∃ arg : NV_ENCODE_API_FUNCTION_LIST,
      arg.unpopulated ∧ arg.version = stubBuild.NV_ENCODE_API_FUNCTION_LIST_VER ∧
      factoryCalls (nvenc_load stubBuild stubPlatform stubLoaded none none).state.trace =
        factoryCalls stubLoaded.trace ++ [(linkResult stubBuild stubPlatform stubLoaded none, arg)] ∧
      (nvenc_load stubBuild stubPlatform stubLoaded none none).state.api =
        (stubPlatform.create_instance (traceAfterLink stubBuild stubPlatform stubLoaded none)
          (linkResult stubBuild stubPlatform stubLoaded none) arg).2) ∧
    (openResult stubBuild stubPlatform stubLoaded (some "missing.so") = 0 ∨
      linkResult stubBuild stubPlatform stubLoaded (some "missing.so") = 0) ∧
    (factoryCalls
        (nvenc_load stubBuild stubPlatform stubLoaded (some "missing.so") none).state.trace =
        factoryCalls stubLoaded.trace ∧
      (nvenc_load stubBuild stubPlatform stubLoaded (some "missing.so") none).state.api =
        stubLoaded.api) :=
  ⟨by decide, by decide,
    (nvenc_load_factory_call stubBuild stubPlatform stubLoaded none none).1 (by decide),
    by decide,
    (nvenc_load_factory_call stubBuild stubPlatform stubLoaded (some "missing.so") none).2
      (by decide)⟩

/-! ## The table after a failed load -/

/-- C4 as stated fails: after a successful load, a load of a path that does not
open returns failure and leaves every entry of the table populated. -/
theorem failed_load_keeps_populated_table :
    stubBuild.NVENC_LOAD_SUCCESS ≠ stubBuild.NVENC_LOAD_FAILURE ∧
    (nvenc_load stubBuild stubPlatform State.init none none).result =
      stubBuild.NVENC_LOAD_SUCCESS ∧
    (nvenc_load stubBuild stubPlatform
        (nvenc_load stubBuild stubPlatform State.init none none).state
        (some "missing.so") none).result = stubBuild.NVENC_LOAD_FAILURE ∧
    (nvenc_load stubBuild stubPlatform
        (nvenc_load stubBuild stubPlatform State.init none none).state
        (some "missing.so") none).state.api.populated := by
  decide

/-- C4, amended: when `nvenc_load` returns failure, either the open or the
symbol resolution failed and the table is the one held before the call, or the
factory returned a status other than success and the table is what the factory
left; so the table is not fully populated after the failure whenever it was
not fully populated before the call and the factory did not fully populate the
record it was handed. -/
theorem failed_load_table (b : Build) (pf : Platform) (s : State)
    (library_path : Option String) (error : Option (Option String))
    (hcodes : b.NVENC_LOAD_SUCCESS ≠ b.NVENC_LOAD_FAILURE)
    (hfail : (nvenc_load b pf s library_path error).result = b.NVENC_LOAD_FAILURE) :
    (((openResult b pf s library_path = 0 ∨ linkResult b pf s library_path = 0) ∧
        (nvenc_load b pf s library_path error).state.api = s.api) ∨
      (openResult b pf s library_path ≠ 0 ∧ linkResult b pf s library_path ≠ 0 ∧
        (factoryResult b pf s library_path).1 ≠ b.NV_ENC_SUCCESS ∧
        (nvenc_load b pf s library_path error).state.api =
          (factoryResult b pf s library_path).2)) ∧
    (¬ s.api.populated →
      (openResult b pf s library_path ≠ 0 → linkResult b pf s library_path ≠ 0 →
        ¬ (factoryResult b pf s library_path).2.populated) →
      ¬ (nvenc_load b pf s library_path error).state.api.populated) := by
  rcases nvenc_load_cases b pf s library_path error with
    ⟨h, e⟩ | ⟨h, hl, e⟩ | ⟨h, hl, hs, e⟩ | ⟨h, hl, hs, e⟩
  · rw [e]
    exact ⟨Or.inl ⟨Or.inl h, rfl⟩, fun hp _ => hp⟩
  · rw [e]
    exact ⟨Or.inl ⟨Or.inr hl, rfl⟩, fun hp _ => hp⟩
  · rw [e]
    exact ⟨Or.inr ⟨h, hl, hs, rfl⟩, fun _ hq => hq h hl⟩
  · rw [e] at hfail
    exact absurd hfail hcodes

/-- C4, amended, on the stub platform: from the start, a library whose factory
fills one entry and then refuses leaves the table not fully populated. -/
theorem failed_load_table_witness :
    stubBuild.NVENC_LOAD_SUCCESS ≠ stubBuild.NVENC_LOAD_FAILURE ∧
    (nvenc_load stubBuild stubPlatform State.init (some "partial.so") none).result =
      stubBuild.NVENC_LOAD_FAILURE ∧
    ¬ State.init.api.populated ∧
    ¬ (factoryResult stubBuild stubPlatform State.init (some "partial.so")).2.populated ∧
    ¬ (nvenc_load stubBuild stubPlatform State.init
        (some "partial.so") none).state.api.populated :=
  ⟨by decide, by decide, by decide, by decide,
    (failed_load_table stubBuild stubPlatform State.init (some "partial.so") none
      (by decide) (by decide)).2 (by decide) (fun _ _ => by decide)⟩

/-! ## The handle and the mapped library -/

theorem liveHandles_append (tr tr1 : List Event) :
    liveHandles (tr ++ tr1) = tr1.foldl loaderStep (liveHandles tr) := by
  simp [liveHandles, List.foldl_append]

/-- Right after `nvenc_load`, a non-null `dll_handle` names a mapped library:
the load path keeps the invariant. -/
theorem nvenc_load_handle_mapped (b : Build) (pf : Platform) (s : State)
    (library_path : Option String) (error : Option (Option String))
    (h : (nvenc_load b pf s library_path error).state.dll_handle ≠ 0) :
    mapped (nvenc_load b pf s library_path error).state.trace
      (nvenc_load b pf s library_path error).state.dll_handle := by
  rcases nvenc_load_cases b pf s library_path error with
    ⟨h0, e⟩ | ⟨h0, _, e⟩ | ⟨h0, _, _, e⟩ | ⟨h0, _, _, e⟩
  · rw [e] at h; exact absurd h0 h
  · rw [e]
    simp [mapped, stateLinkFailed, traceAfterLink, traceAfterOpen, liveHandles_append,
      loaderStep, h0]
  · rw [e]
    simp [mapped, stateNegotiated, traceAfterLink, traceAfterOpen, liveHandles_append,
      loaderStep, h0]
  · rw [e]
    simp [mapped, stateNegotiated, traceAfterLink, traceAfterOpen, liveHandles_append,
      loaderStep, h0]

/-- C6 fails on the code: after a successful `nvenc_load` and one
`nvenc_unload`, a state the shim reaches from its initial state, `dll_handle`
is still the non-null handle of the load while the platform loader no longer
holds that library mapped; a second `nvenc_unload` then passes its null check
and closes the same handle again. -/
theorem unload_leaves_stale_handle :
    Reachable stubBuild stubPlatform (nvenc_unload stubLoaded) ∧
    (nvenc_unload stubLoaded).dll_handle = 7 ∧
    (nvenc_unload stubLoaded).dll_handle ≠ 0 ∧
    liveHandles (nvenc_unload stubLoaded).trace = [] ∧
    ¬ mapped (nvenc_unload stubLoaded).trace (nvenc_unload stubLoaded).dll_handle ∧
    closedHandles (nvenc_unload (nvenc_unload stubLoaded)).trace = [7, 7] :=
  ⟨⟨[Action.load none none, Action.unload], by decide⟩, by decide, by decide, by decide,
    by decide, by decide⟩

/-! ## Load, unload, load again -/

theorem nvenc_unload_stateNegotiated (b : Build) (pf : Platform) (s : State)
    (library_path : Option String) (h : openResult b pf s library_path ≠ 0) :
    nvenc_unload (stateNegotiated b pf s library_path) =
      { stateNegotiated b pf s library_path with
        trace := (stateNegotiated b pf s library_path).trace ++
          [Event.dll_unload (openResult b pf s library_path)] } := by
  simp [nvenc_unload, stateNegotiated, h]

/-- C7: at a path where the platform loader and the vendor factory answer
alike whatever happened before, a successful `nvenc_load` followed by
`nvenc_unload` and `nvenc_load` of the same path succeeds again with the same
table and the same handle; over the three calls that handle is closed exactly
once, and one more handle is open and unreleased than before them. -/
theorem load_unload_load (b : Build) (pf : Platform) (s : State)
    (library_path : Option String) (error error2 : Option (Option String))
    (hcodes : b.NVENC_LOAD_SUCCESS ≠ b.NVENC_LOAD_FAILURE)
    (hdet : Deterministic pf (chosenPath b library_path))
    (hok : (nvenc_load b pf s library_path error).result = b.NVENC_LOAD_SUCCESS) :
    ∃ h : Handle,
      h ≠ 0 ∧ (nvenc_load b pf s library_path error).state.dll_handle = h ∧
      (nvenc_load b pf (nvenc_unload (nvenc_load b pf s library_path error).state)
        library_path error2).result = b.NVENC_LOAD_SUCCESS ∧
      (nvenc_load b pf (nvenc_unload (nvenc_load b pf s library_path error).state)
        library_path error2).state.api = (nvenc_load b pf s library_path error).state.api ∧
      (nvenc_load b pf (nvenc_unload (nvenc_load b pf s library_path error).state)
        library_path error2).state.dll_handle = h ∧
      closedHandles (nvenc_load b pf (nvenc_unload (nvenc_load b pf s library_path error).state)
        library_path error2).state.trace = closedHandles s.trace ++ [h] ∧
      liveHandles (nvenc_load b pf (nvenc_unload (nvenc_load b pf s library_path error).state)
        library_path error2).state.trace = h :: liveHandles s.trace := by
  rcases nvenc_load_cases b pf s library_path error with
    ⟨h, e⟩ | ⟨h, hl, e⟩ | ⟨h, hl, hs, e⟩ | ⟨h, hl, hs, e⟩
  · rw [e] at hok; exact absurd hok.symm hcodes
  · rw [e] at hok; exact absurd hok.symm hcodes
  · rw [e] at hok; exact absurd hok.symm hcodes
  · obtain ⟨hdo, hdl, hdf⟩ := hdet
    have ho2 : openResult b pf (nvenc_unload (stateNegotiated b pf s library_path))
        library_path = openResult b pf s library_path := hdo _ _
    have hl2 : linkResult b pf (nvenc_unload (stateNegotiated b pf s library_path))
        library_path = linkResult b pf s library_path := by
      unfold linkResult
      rw [ho2]
      exact hdl _ _ _
    have hf2 : factoryResult b pf (nvenc_unload (stateNegotiated b pf s library_path))
        library_path = factoryResult b pf s library_path := by
      unfold factoryResult
      rw [hl2]
      exact hdf _ _ _ _
    have e2 := nvenc_load_succeeded b pf (nvenc_unload (stateNegotiated b pf s library_path))
      library_path error2 (by rw [ho2]; exact h) (by rw [hl2]; exact hl) (by rw [hf2]; exact hs)
    refine ⟨openResult b pf s library_path, h, ?_⟩
    rw [e, e2]
    refine ⟨rfl, rfl, ?_, ho2, ?_, ?_⟩
    · show (factoryResult b pf (nvenc_unload (stateNegotiated b pf s library_path))
        library_path).2 = (factoryResult b pf s library_path).2
      rw [hf2]
    · show closedHandles
        (traceAfterLink b pf (nvenc_unload (stateNegotiated b pf s library_path)) library_path ++
          [Event.create_instance
            (linkResult b pf (nvenc_unload (stateNegotiated b pf s library_path)) library_path)
            (factoryArgument b)]) = _
      simp only [traceAfterLink, traceAfterOpen, ho2, hl2]
      rw [nvenc_unload_stateNegotiated b pf s library_path h]
      simp only [stateNegotiated, traceAfterLink, traceAfterOpen, closedHandles_append]
      simp [closedHandles]
    · show liveHandles
        (traceAfterLink b pf (nvenc_unload (stateNegotiated b pf s library_path)) library_path ++
          [Event.create_instance
            (linkResult b pf (nvenc_unload (stateNegotiated b pf s library_path)) library_path)
            (factoryArgument b)]) = _
      simp only [traceAfterLink, traceAfterOpen, ho2, hl2]
      rw [nvenc_unload_stateNegotiated b pf s library_path h]
      simp only [stateNegotiated, traceAfterLink, traceAfterOpen, liveHandles_append]
      simp [loaderStep, h]

/-- C7 on the stub platform, from the start: the default library, loaded,
unloaded and loaded again, leaves exactly the handle `7` open. -/
theorem load_unload_load_witness :
    stubBuild.NVENC_LOAD_SUCCESS ≠ stubBuild.NVENC_LOAD_FAILURE ∧
    Deterministic stubPlatform (chosenPath stubBuild none) ∧
    (nvenc_load stubBuild stubPlatform State.init none none).result =
      stubBuild.NVENC_LOAD_SUCCESS ∧
    (∃ h : Handle,
      h ≠ 0 ∧ (nvenc_load stubBuild stubPlatform State.init none none).state.dll_handle = h ∧
      (nvenc_load stubBuild stubPlatform
        (nvenc_unload (nvenc_load stubBuild stubPlatform State.init none none).state)
        none none).result = stubBuild.NVENC_LOAD_SUCCESS ∧
      (nvenc_load stubBuild stubPlatform
        (nvenc_unload (nvenc_load stubBuild stubPlatform State.init none none).state)
        none none).state.api = (nvenc_load stubBuild stubPlatform State.init none none).state.api ∧
      (nvenc_load stubBuild stubPlatform
        (nvenc_unload (nvenc_load stubBuild stubPlatform State.init none none).state)
        none none).state.dll_handle = h ∧
      closedHandles (nvenc_load stubBuild stubPlatform
        (nvenc_unload (nvenc_load stubBuild stubPlatform State.init none none).state)
        none none).state.trace = closedHandles State.init.trace ++ [h] ∧
      liveHandles (nvenc_load stubBuild stubPlatform
        (nvenc_unload (nvenc_load stubBuild stubPlatform State.init none none).state)
        none none).state.trace = h :: liveHandles State.init.trace) ∧
    liveHandles (nvenc_load stubBuild stubPlatform
        (nvenc_unload (nvenc_load stubBuild stubPlatform State.init none none).state)
        none none).state.trace = [7] :=
  ⟨by decide, ⟨fun _ _ => rfl, fun _ _ _ => rfl, fun _ _ _ _ => rfl⟩, by decide,
    load_unload_load stubBuild stubPlatform State.init none none none (by decide)
      ⟨fun _ _ => rfl, fun _ _ _ => rfl, fun _ _ _ _ => rfl⟩ (by decide),
    by decide⟩

end NvencLoader
